import Mathlib

/-
Shallow embedding of the Activation lifecycle orchestrator of
`src/aap_eda/api/views/activation.py` (eda-server), together with the
conflict resolver `handle_activation_create_conflict` and the rule-count
aggregation `_get_rules_count`.  Databases are modelled as lists of
records, the asynchronous job queue as the list of jobs dispatched by an
operation, and HTTP responses as their numeric status codes.
-/

set_option autoImplicit false

namespace AapEda

/-- Modelled from the spec: the `ActivationStatus` enum
(`aap_eda.core.enums`) is not under `src/`; the spec lists the statuses
PENDING, STARTING, RUNNING, STOPPING, STOPPED, FAILED, COMPLETED,
UNRESPONSIVE, ERROR. -/
inductive ActivationStatus where
  | pending
  | starting
  | running
  | stopping
  | stopped
  | failed
  | completed
  | unresponsive
  | error
  deriving DecidableEq, Repr

/-- The settings consumed by the activation view:
`DEPLOYMENT_TYPE`, `WEBSOCKET_BASE_URL`, `WEBSOCKET_SSL_VERIFY`. -/
structure Settings where
  deployment_type : String
  ws_base_url : String
  ssl_verify : String
  deriving DecidableEq, Repr

/-- Default values from `aap_eda/settings/default.py`. -/
def defaultSettings : Settings :=
  { deployment_type := "local"
    ws_base_url := "ws://localhost:8000"
    ssl_verify := "yes" }

/-- Per-ruleset statistics entry: the `numberOfRules` / `rulesTriggered`
counters stored in an Activation's `ruleset_stats` mapping. -/
structure RulesetStat where
  numberOfRules : Nat
  rulesTriggered : Nat
  deriving DecidableEq, Repr

/-- The `Activation` model record (the fields the view reads or writes). -/
structure Activation where
  id : Nat
  name : String
  is_enabled : Bool
  status : ActivationStatus
  failure_count : Nat
  restart_count : Nat
  current_job_id : Option Nat
  decision_environment_id : Option Nat
  project_id : Option Nat
  rulebook_id : Option Nat
  extra_var_id : Option Nat
  ruleset_stats : List (String × RulesetStat)
  deriving DecidableEq, Repr

/-- The `ActivationInstance` model record. -/
structure ActivationInstance where
  id : Nat
  activation_id : Nat
  status : ActivationStatus
  started_at : Nat
  deriving DecidableEq, Repr

/-- A job submitted to the task queue by the view
(`activate_rulesets.delay`, `deactivate_rulesets.delay`,
`deactivate.delay`), with the parameters the view passes. -/
inductive Job where
  | activate_rulesets (is_restart : Bool) (activation_id : Nat)
      (deployment_type : String) (ws_base_url : String) (ssl_verify : String)
  | deactivate_rulesets (activation_instance_id : Nat) (deployment_type : String)
  | deactivate (activation_id : Nat)
  deriving DecidableEq, Repr

/-- API-level exceptions raised by the view
(`api_exc.Unprocessable`, `api_exc.NotFound`, `api_exc.HttpForbidden`). -/
inductive ApiError where
  | unprocessable (detail : String)
  | notFound (detail : String)
  | httpForbidden (detail : String)
  deriving DecidableEq, Repr

/-- Existence tables for the four entities an Activation references, standing
for `models.DecisionEnvironment.objects`, `models.Project.objects`,
`models.Rulebook.objects` and `models.ExtraVar.objects`. -/
structure DB where
  decision_environments : List Nat
  projects : List Nat
  rulebooks : List Nat
  extra_vars : List Nat
  deriving DecidableEq, Repr

/-- The validated data of `ActivationCreateSerializer`. -/
structure CreateInput where
  name : String
  is_enabled : Bool
  decision_environment_id : Option Nat
  project_id : Option Nat
  rulebook_id : Option Nat
  extra_var_id : Option Nat
  deriving DecidableEq, Repr

/-- The `.filter(pk=object_id).exists()` check, skipped for an absent
(`None`) reference. -/
def depExists (tbl : List Nat) : Option Nat → Bool
  | none => true
  | some object_id => tbl.contains object_id

/-- The loop body of `handle_activation_create_conflict`: walk the dependent
objects in order; skip `None` ids; raise a specific `Unprocessable` for the
first referenced id that does not exist; fall through to the generic
integrity error. -/
def checkDependentObjects : List (List Nat × String × Option Nat) → ApiError
  | [] => ApiError.unprocessable "Integrity error."
  | (tbl, object_name, object_id) :: rest =>
    match object_id with
    | none => checkDependentObjects rest
    | some oid =>
      if tbl.contains oid then
        checkDependentObjects rest
      else
        ApiError.unprocessable
          (object_name.capitalize ++ " with ID=" ++ toString oid ++ " does not exist.")

/-- `handle_activation_create_conflict` from `activation.py`: resolve a
storage `IntegrityError` raised while creating an Activation into a
resource-specific error, checking decision environment, project, rulebook
and extra var in that order. -/
def handle_activation_create_conflict (db : DB) (activation : CreateInput) : ApiError :=
  checkDependentObjects
    [ (db.decision_environments, "decision_environment", activation.decision_environment_id)
    , (db.projects, "project", activation.project_id)
    , (db.rulebooks, "rulebook", activation.rulebook_id)
    , (db.extra_vars, "extra_var", activation.extra_var_id) ]

/-- All four foreign references of the attempted Activation exist, i.e. the
insert raises no `IntegrityError`. -/
def dbOk (db : DB) (inp : CreateInput) : Bool :=
  depExists db.decision_environments inp.decision_environment_id &&
  depExists db.projects inp.project_id &&
  depExists db.rulebooks inp.rulebook_id &&
  depExists db.extra_vars inp.extra_var_id

/-- The enriched Activation dictionary built by
`_get_activation_dependent_objects` and returned through
`ActivationReadSerializer`: the record, its instances, the `restarted_at`
value and the two rule counters filled in by the caller. -/
structure ActivationRead where
  activation : Activation
  instances : List ActivationInstance
  restarted_at : Option Nat
  rules_count : Nat
  rules_fired_count : Nat
  deriving DecidableEq, Repr

/-- `_get_activation_dependent_objects`: attach the owned instances and the
`started_at` of the latest instance; the rule counters are overwritten by
every caller, so they start at 0 here. -/
def _get_activation_dependent_objects (a : Activation)
    (instances : List ActivationInstance) : ActivationRead :=
  let owned := instances.filter (fun i => i.activation_id == a.id)
  { activation := a
    instances := owned
    restarted_at := (owned.map ActivationInstance.started_at).max?
    rules_count := 0
    rules_fired_count := 0 }

/-- `_get_rules_count`: accumulate `numberOfRules` and `rulesTriggered`
over all values of the `ruleset_stats` mapping. -/
def _get_rules_count (ruleset_stats : List (String × RulesetStat)) : Nat × Nat :=
  ruleset_stats.foldl
    (fun acc ruleset_stat =>
      (acc.1 + ruleset_stat.2.numberOfRules, acc.2 + ruleset_stat.2.rulesTriggered))
    (0, 0)

/-- `ActivationViewSet.retrieve`: enrich the record and fill in the two rule
counters from `_get_rules_count` of its `ruleset_stats`. -/
def retrieve (a : Activation) (instances : List ActivationInstance) : ActivationRead :=
  let activation := _get_activation_dependent_objects a instances
  let counts := _get_rules_count a.ruleset_stats
  { activation with rules_count := counts.1, rules_fired_count := counts.2 }

/-- `ActivationViewSet.create` (success and integrity-failure paths): when
every referenced entity exists, persist the record, zero the returned rule
counters, and dispatch `activate_rulesets` only when the created record is
enabled; on an `IntegrityError`, resolve it with
`handle_activation_create_conflict`. -/
def create (s : Settings) (db : DB) (inp : CreateInput) (newId : Nat) :
    Except ApiError (ActivationRead × List Job) :=
  if dbOk db inp then
    let response : Activation :=
      { id := newId
        name := inp.name
        is_enabled := inp.is_enabled
        status := ActivationStatus.pending
        failure_count := 0
        restart_count := 0
        current_job_id := none
        decision_environment_id := inp.decision_environment_id
        project_id := inp.project_id
        rulebook_id := inp.rulebook_id
        extra_var_id := inp.extra_var_id
        ruleset_stats := [] }
    let activation0 := _get_activation_dependent_objects response []
    let activation := { activation0 with rules_count := 0, rules_fired_count := 0 }
    let jobs : List Job :=
      if response.is_enabled then
        [Job.activate_rulesets false response.id
          s.deployment_type s.ws_base_url s.ssl_verify]
      else []
    Except.ok (activation, jobs)
  else
    Except.error (handle_activation_create_conflict db inp)

/-- The outcome of an action endpoint: the (possibly updated) record, the
jobs dispatched while handling the request, and the HTTP status code. -/
structure ActionResult where
  activation : Activation
  jobs : List Job
  response : Nat
  deriving DecidableEq, Repr

/-- `ActivationViewSet.enable`: no-op when already enabled; 409 when the
status is busy; otherwise enable, zero `failure_count`, set status PENDING,
dispatch one `activate_rulesets` job and store its handle. -/
def enable (s : Settings) (a : Activation) (jobId : Nat) : ActionResult :=
  if a.is_enabled then
    { activation := a, jobs := [], response := 204 }
  else if a.status ∈ [ActivationStatus.starting, ActivationStatus.stopping,
      ActivationStatus.pending, ActivationStatus.running,
      ActivationStatus.unresponsive] then
    { activation := a, jobs := [], response := 409 }
  else
    let a1 : Activation :=
      { a with is_enabled := true
               failure_count := 0
               status := ActivationStatus.pending }
    let job := Job.activate_rulesets false a.id
      s.deployment_type s.ws_base_url s.ssl_verify
    { activation := { a1 with current_job_id := some jobId }
      jobs := [job]
      response := 204 }

/-- `ActivationViewSet.disable`: when enabled, set status STOPPING and
`is_enabled` false, persist, and dispatch one `deactivate` task for the
activation; otherwise do nothing.  Always responds 204. -/
def disable (a : Activation) : ActionResult :=
  if a.is_enabled then
    { activation := { a with status := ActivationStatus.stopping, is_enabled := false }
      jobs := [Job.deactivate a.id]
      response := 204 }
  else
    { activation := a, jobs := [], response := 204 }

/-- Modelled from the spec: the body of the `deactivate` task
(`aap_eda.tasks.ruleset.deactivate`) is not under `src/`; per the spec,
disabling "dispatches one deactivate job per currently running instance",
so the task issues one `deactivate_rulesets` signal for each instance of
the activation whose status is RUNNING. -/
def deactivate_task (s : Settings) (instances : List ActivationInstance)
    (activation_id : Nat) : List Job :=
  (instances.filter
      (fun i => i.activation_id == activation_id &&
                i.status == ActivationStatus.running)).map
    (fun i => Job.deactivate_rulesets i.id s.deployment_type)

/-- `ActivationViewSet.restart`: 403 when disabled; otherwise dispatch
`deactivate_rulesets` for the first RUNNING instance (when one exists),
then `activate_rulesets`, and increment `restart_count`. -/
def restart (s : Settings) (a : Activation)
    (instances : List ActivationInstance) : ActionResult :=
  if !a.is_enabled then
    { activation := a, jobs := [], response := 403 }
  else
    let instance_running :=
      (instances.filter
        (fun i => i.activation_id == a.id &&
                  i.status == ActivationStatus.running)).head?
    let djobs : List Job :=
      match instance_running with
      | some inst => [Job.deactivate_rulesets inst.id s.deployment_type]
      | none => []
    let jobs := djobs ++
      [Job.activate_rulesets false a.id
        s.deployment_type s.ws_base_url s.ssl_verify]
    { activation := { a with restart_count := a.restart_count + 1 }
      jobs := jobs
      response := 204 }

/-- An event in the destroy path: a job dispatch or the removal of the
Activation record itself. -/
inductive Event where
  | dispatch (j : Job)
  | removeActivation (id : Nat)
  deriving DecidableEq, Repr

/-- `ActivationViewSet.perform_destroy`: dispatch `deactivate_rulesets` for
every instance of the activation (whatever its status), then delete the
record. -/
def perform_destroy (s : Settings) (a : Activation)
    (instances : List ActivationInstance) : List Event :=
  (instances.filter (fun i => i.activation_id == a.id)).map
      (fun i => Event.dispatch (Job.deactivate_rulesets i.id s.deployment_type)) ++
    [Event.removeActivation a.id]

/-- Job is an `activate_rulesets` dispatch. -/
def isActivate : Job → Bool
  | Job.activate_rulesets .. => true
  | _ => false

/-- Job is a `deactivate_rulesets` dispatch (for any instance). -/
def isDeact : Job → Bool
  | Job.deactivate_rulesets _ _ => true
  | _ => false

/-- Job is a `deactivate_rulesets` dispatch for the given instance id. -/
def isDeactFor (iid : Nat) : Job → Bool
  | Job.deactivate_rulesets i _ => i == iid
  | _ => false

/-- Number of `activate_rulesets` jobs in a dispatch list. -/
def countActivate (jobs : List Job) : Nat :=
  (jobs.filter isActivate).length

/-- Number of `deactivate_rulesets` jobs for a given instance id. -/
def countDeactFor (jobs : List Job) (iid : Nat) : Nat :=
  (jobs.filter (isDeactFor iid)).length

/-- Event is a `deactivate_rulesets` dispatch. -/
def isDeactEvent : Event → Bool
  | Event.dispatch (Job.deactivate_rulesets _ _) => true
  | _ => false

/-- Event is a `deactivate_rulesets` dispatch for the given instance id. -/
def isDeactEventFor (iid : Nat) : Event → Bool
  | Event.dispatch (Job.deactivate_rulesets i _) => i == iid
  | _ => false

/-- Mathematical sum of the `numberOfRules` counters of a stats mapping
(the quantity the spec says `rules_count` must equal). -/
def sum_numberOfRules (ruleset_stats : List (String × RulesetStat)) : Nat :=
  (ruleset_stats.map (fun kv => kv.2.numberOfRules)).sum

/-- Mathematical sum of the `rulesTriggered` counters of a stats mapping
(the quantity the spec says `rules_fired_count` must equal). -/
def sum_rulesTriggered (ruleset_stats : List (String × RulesetStat)) : Nat :=
  (ruleset_stats.map (fun kv => kv.2.rulesTriggered)).sum

/-- The accumulator loop of `_get_rules_count` computes the two sums on top
of whatever is already in the accumulator. -/
theorem rules_count_foldl (l : List (String × RulesetStat)) (p : Nat × Nat) :
    l.foldl
      (fun acc ruleset_stat =>
        (acc.1 + ruleset_stat.2.numberOfRules, acc.2 + ruleset_stat.2.rulesTriggered))
      p = (p.1 + sum_numberOfRules l, p.2 + sum_rulesTriggered l) := by
  induction l generalizing p with
  | nil => simp [sum_numberOfRules, sum_rulesTriggered]
  | cons kv rest ih =>
    simp only [List.foldl_cons, ih, sum_numberOfRules, sum_rulesTriggered,
      List.map_cons, List.sum_cons, Prod.mk.injEq]
    omega

/-- Filtering the deactivate jobs for one instance id out of a per-instance
dispatch list is filtering the instances by that id first. -/
theorem filter_isDeactFor_map (l : List ActivationInstance) (dt : String) (n : Nat) :
    (l.map (fun i => Job.deactivate_rulesets i.id dt)).filter (isDeactFor n) =
      (l.filter (fun i => i.id == n)).map
        (fun i => Job.deactivate_rulesets i.id dt) := by
  induction l with
  | nil => rfl
  | cons x xs ih =>
    by_cases h : (x.id == n) = true
    · simp [List.filter_cons, isDeactFor, h, ih]
    · simp [List.filter_cons, isDeactFor, h, ih]

/-- In a list of instances with pairwise-distinct ids, an instance `i`
satisfying a filter is counted exactly once when the filtered list is
further restricted to `i`'s id. -/
theorem length_filter_id_eq_one (l : List ActivationInstance)
    (p : ActivationInstance → Bool) (i : ActivationInstance)
    (hnd : (l.map ActivationInstance.id).Nodup) (hi : i ∈ l) (hp : p i = true) :
    ((l.filter p).filter (fun x => x.id == i.id)).length = 1 := by
  induction l with
  | nil => cases hi
  | cons x xs ih =>
    rw [List.map_cons, List.nodup_cons] at hnd
    obtain ⟨hx, hnd2⟩ := hnd
    rcases List.mem_cons.mp hi with h | h
    · subst h
      have hxs : ∀ y ∈ xs.filter p, (y.id == i.id) = false := by
        intro y hy
        have hyx : y ∈ xs := List.mem_of_mem_filter hy
        have : y.id ≠ i.id := by
          intro he
          exact hx (he ▸ List.mem_map_of_mem ActivationInstance.id hyx)
        simp [this]
      rw [List.filter_cons_of_pos hp, List.filter_cons_of_pos (by simp)]
      have hnil : List.filter (fun x => x.id == i.id) (List.filter p xs) = [] :=
        List.filter_eq_nil_iff.mpr (fun y hy => by simp [hxs y hy])
      simp [hnil]
    · have hxi : (x.id == i.id) = false := by
        have : x.id ≠ i.id := by
          intro he
          exact hx (he ▸ List.mem_map_of_mem ActivationInstance.id h)
        simp [this]
      by_cases hpx : p x
      · rw [List.filter_cons_of_pos hpx, List.filter_cons_of_neg (by simp [hxi])]
        exact ih hnd2 h
      · rw [List.filter_cons_of_neg hpx]
        exact ih hnd2 h

/-- C2: an Enable request on an Activation that is not already enabled and
whose status is STARTING, STOPPING, PENDING, RUNNING or UNRESPONSIVE
returns 409 Conflict, leaves the record unchanged, and dispatches no job. -/
theorem enable_busy_conflict (s : Settings) (a : Activation) (jobId : Nat)
    (h1 : a.is_enabled = false)
    (h2 : a.status ∈ [ActivationStatus.starting, ActivationStatus.stopping,
      ActivationStatus.pending, ActivationStatus.running,
      ActivationStatus.unresponsive]) :
    enable s a jobId = { activation := a, jobs := [], response := 409 } := by
  simp [enable, h1, h2]

/-- Witness for C2: a disabled RUNNING Activation gets 409 from Enable with
no mutation and no dispatch. -/
def aBusyW : Activation :=
  { id := 1, name := "w2", is_enabled := false, status := ActivationStatus.running
    failure_count := 2, restart_count := 0, current_job_id := none
    decision_environment_id := none, project_id := none, rulebook_id := none
    extra_var_id := none, ruleset_stats := [] }

theorem enable_busy_conflict_witness :
    enable defaultSettings aBusyW 5 =
      { activation := aBusyW, jobs := [], response := 409 } :=
  enable_busy_conflict defaultSettings aBusyW 5 (by decide) (by decide)

/-- C4: a Restart request on a disabled Activation responds 403 Forbidden,
dispatches no job, and leaves the record (in particular `restart_count`)
unchanged. -/
theorem restart_disabled_forbidden (s : Settings) (a : Activation)
    (instances : List ActivationInstance) (h : a.is_enabled = false) :
    restart s a instances = { activation := a, jobs := [], response := 403 } := by
  simp [restart, h]

/-- Witness for C4 at a concrete disabled Activation. -/
def aDisabledW : Activation :=
  { id := 3, name := "w4", is_enabled := false, status := ActivationStatus.stopped
    failure_count := 0, restart_count := 7, current_job_id := none
    decision_environment_id := none, project_id := none, rulebook_id := none
    extra_var_id := none, ruleset_stats := [] }

theorem restart_disabled_forbidden_witness :
    restart defaultSettings aDisabledW
        [{ id := 30, activation_id := 3, status := ActivationStatus.running,
           started_at := 0 }] =
      { activation := aDisabledW, jobs := [], response := 403 } :=
  restart_disabled_forbidden defaultSettings aDisabledW
    [{ id := 30, activation_id := 3, status := ActivationStatus.running,
       started_at := 0 }] (by decide)

/-- C1: on a successful Create, the returned record has both rule counters
zeroed, and an activate job is dispatched if and only if the created
record's `is_enabled` is true (a creation with `is_enabled = false`
dispatches nothing). -/
theorem create_dispatch_iff_enabled (s : Settings) (db : DB) (inp : CreateInput)
    (newId : Nat) (actRead : ActivationRead) (jobs : List Job)
    (h : create s db inp newId = Except.ok (actRead, jobs)) :
    actRead.activation.is_enabled = inp.is_enabled ∧
    actRead.rules_count = 0 ∧
    actRead.rules_fired_count = 0 ∧
    (countActivate jobs = 1 ↔ actRead.activation.is_enabled = true) ∧
    (jobs = [] ↔ actRead.activation.is_enabled = false) := by
  by_cases hdb : dbOk db inp = true
  · unfold create at h
    rw [if_pos hdb] at h
    simp only [Except.ok.injEq, Prod.mk.injEq] at h
    obtain ⟨hread, hjobs⟩ := h
    subst hread
    subst hjobs
    cases he : inp.is_enabled <;>
      simp [_get_activation_dependent_objects, countActivate, isActivate, he]
  · unfold create at h
    rw [if_neg hdb] at h
    cases h

/-- Concrete database for the C1 witness. -/
def dbW1 : DB :=
  { decision_environments := [1], projects := [2], rulebooks := [3], extra_vars := [4] }

/-- Concrete create input for the C1 witness. -/
def inpW1 : CreateInput :=
  { name := "w1", is_enabled := true, decision_environment_id := some 1
    project_id := none, rulebook_id := some 3, extra_var_id := none }

/-- The Activation record persisted by the C1 witness create call. -/
def responseW1 : Activation :=
  { id := 7, name := "w1", is_enabled := true, status := ActivationStatus.pending
    failure_count := 0, restart_count := 0, current_job_id := none
    decision_environment_id := some 1, project_id := none, rulebook_id := some 3
    extra_var_id := none, ruleset_stats := [] }

/-- The enriched record returned by the C1 witness create call. -/
def readW1 : ActivationRead :=
  { activation := responseW1, instances := [], restarted_at := none
    rules_count := 0, rules_fired_count := 0 }

/-- The jobs dispatched by the C1 witness create call. -/
def jobsW1 : List Job :=
  [Job.activate_rulesets false 7 "local" "ws://localhost:8000" "yes"]

theorem create_dispatch_iff_enabled_witness :
    readW1.activation.is_enabled = inpW1.is_enabled ∧
    readW1.rules_count = 0 ∧
    readW1.rules_fired_count = 0 ∧
    (countActivate jobsW1 = 1 ↔ readW1.activation.is_enabled = true) ∧
    (jobsW1 = [] ↔ readW1.activation.is_enabled = false) :=
  create_dispatch_iff_enabled defaultSettings dbW1 inpW1 7 readW1 jobsW1 rfl

/-- An already-enabled Activation with nonzero `failure_count` and a
terminal status, used to refute C3's already-enabled arm. -/
def aEnabledC3 : Activation :=
  { id := 2, name := "c3", is_enabled := true, status := ActivationStatus.failed
    failure_count := 5, restart_count := 0, current_job_id := none
    decision_environment_id := none, project_id := none, rulebook_id := none
    extra_var_id := none, ruleset_stats := [] }

/-- Counterexample to C3: Enable on an already-enabled Activation (here
with `failure_count = 5`, status FAILED) is a no-op in the code: no
activate dispatch, `failure_count` kept, status not set to PENDING —
contrary to the claim's "or that is already enabled" arm. -/
theorem enable_already_enabled_counterexample :
    (enable defaultSettings aEnabledC3 9).jobs = [] ∧
    (enable defaultSettings aEnabledC3 9).activation.failure_count = 5 ∧
    (enable defaultSettings aEnabledC3 9).activation.status = ActivationStatus.failed ∧
    ¬ ((enable defaultSettings aEnabledC3 9).activation.failure_count = 0 ∧
       (enable defaultSettings aEnabledC3 9).activation.status = ActivationStatus.pending ∧
       countActivate (enable defaultSettings aEnabledC3 9).jobs = 1) := by
  decide

/-- C3 (amended): Enable on a not-already-enabled Activation whose status
is STOPPED, FAILED, COMPLETED or ERROR sets `is_enabled = true`, resets
`failure_count` to 0, sets status PENDING, persists, dispatches exactly
one activate job with `is_restart = false`, and stores the returned job
handle in `current_job_id`; Enable on an already-enabled Activation
succeeds as a no-op with no mutation and no dispatch. -/
theorem enable_spec_amended (s : Settings) (a : Activation) (jobId : Nat) :
    (a.is_enabled = true →
      enable s a jobId = { activation := a, jobs := [], response := 204 }) ∧
    (a.is_enabled = false →
      a.status ∈ [ActivationStatus.stopped, ActivationStatus.failed,
        ActivationStatus.completed, ActivationStatus.error] →
      enable s a jobId =
        { activation :=
            { a with is_enabled := true, failure_count := 0,
                     status := ActivationStatus.pending,
                     current_job_id := some jobId }
          jobs := [Job.activate_rulesets false a.id
            s.deployment_type s.ws_base_url s.ssl_verify]
          response := 204 }) := by
  constructor
  · intro h1
    simp [enable, h1]
  · intro h1 h2
    have hb : a.status ∉ [ActivationStatus.starting, ActivationStatus.stopping,
        ActivationStatus.pending, ActivationStatus.running,
        ActivationStatus.unresponsive] := by
      simp only [List.mem_cons, List.not_mem_nil, or_false] at h2 ⊢
      rcases h2 with h | h | h | h <;> rw [h] <;> decide
    simp [enable, h1, hb]

/-- A disabled FAILED Activation for the C3 witness (idle branch). -/
def aIdleW : Activation :=
  { id := 4, name := "w3a", is_enabled := false, status := ActivationStatus.failed
    failure_count := 3, restart_count := 1, current_job_id := some 11
    decision_environment_id := none, project_id := none, rulebook_id := none
    extra_var_id := none, ruleset_stats := [] }

/-- An enabled RUNNING Activation for the C3 witness (no-op branch). -/
def aOnW : Activation :=
  { id := 5, name := "w3b", is_enabled := true, status := ActivationStatus.running
    failure_count := 1, restart_count := 0, current_job_id := some 12
    decision_environment_id := none, project_id := none, rulebook_id := none
    extra_var_id := none, ruleset_stats := [] }

theorem enable_spec_amended_witness :
    enable defaultSettings aOnW 6 =
      { activation := aOnW, jobs := [], response := 204 } ∧
    enable defaultSettings aIdleW 6 =
      { activation :=
          { aIdleW with is_enabled := true, failure_count := 0,
                        status := ActivationStatus.pending,
                        current_job_id := some 6 }
        jobs := [Job.activate_rulesets false 4 "local" "ws://localhost:8000" "yes"]
        response := 204 } :=
  ⟨(enable_spec_amended defaultSettings aOnW 6).1 (by decide),
   (enable_spec_amended defaultSettings aIdleW 6).2 (by decide) (by decide)⟩

/-- C5: Restart on an enabled Activation increments `restart_count` by one
and responds 204; when no owned instance is RUNNING it dispatches only the
activate job; when the RUNNING filter is non-empty it dispatches exactly
one deactivate job — for the first RUNNING instance of the Activation —
followed by exactly one activate job with `is_restart = false`. -/
theorem restart_enabled_spec (s : Settings) (a : Activation)
    (instances : List ActivationInstance) (h : a.is_enabled = true) :
    (restart s a instances).activation =
      { a with restart_count := a.restart_count + 1 } ∧
    (restart s a instances).response = 204 ∧
    (instances.filter (fun x => x.activation_id == a.id &&
        x.status == ActivationStatus.running) = [] →
      (restart s a instances).jobs =
        [Job.activate_rulesets false a.id
          s.deployment_type s.ws_base_url s.ssl_verify]) ∧
    (∀ i rest, instances.filter (fun x => x.activation_id == a.id &&
        x.status == ActivationStatus.running) = i :: rest →
      (restart s a instances).jobs =
        [Job.deactivate_rulesets i.id s.deployment_type,
         Job.activate_rulesets false a.id
           s.deployment_type s.ws_base_url s.ssl_verify] ∧
      i ∈ instances ∧ i.activation_id = a.id ∧
      i.status = ActivationStatus.running) := by
  refine ⟨by simp [restart, h], by simp [restart, h], ?_, ?_⟩
  · intro hnil
    simp [restart, h, hnil]
  · intro i rest hf
    have hmem : i ∈ instances.filter (fun x => x.activation_id == a.id &&
        x.status == ActivationStatus.running) := by
      rw [hf]; exact List.mem_cons_self _ _
    obtain ⟨hmem2, hpred⟩ := List.mem_filter.mp hmem
    simp only [Bool.and_eq_true, beq_iff_eq] at hpred
    exact ⟨by simp [restart, h, hf], hmem2, hpred.1, hpred.2⟩

/-- Enabled Activation for the C5 witness. -/
def aRestW : Activation :=
  { id := 6, name := "w5", is_enabled := true, status := ActivationStatus.running
    failure_count := 0, restart_count := 2, current_job_id := none
    decision_environment_id := none, project_id := none, rulebook_id := none
    extra_var_id := none, ruleset_stats := [] }

/-- Instance list for the C5 witness: one RUNNING instance of the
Activation. -/
def instRestW : List ActivationInstance :=
  [{ id := 60, activation_id := 6, status := ActivationStatus.running,
     started_at := 100 }]

theorem restart_enabled_spec_witness :
    (restart defaultSettings aRestW instRestW).activation =
      { aRestW with restart_count := aRestW.restart_count + 1 } ∧
    (restart defaultSettings aRestW instRestW).response = 204 ∧
    (instRestW.filter (fun x => x.activation_id == aRestW.id &&
        x.status == ActivationStatus.running) = [] →
      (restart defaultSettings aRestW instRestW).jobs =
        [Job.activate_rulesets false aRestW.id
          defaultSettings.deployment_type defaultSettings.ws_base_url
          defaultSettings.ssl_verify]) ∧
    (∀ i rest, instRestW.filter (fun x => x.activation_id == aRestW.id &&
        x.status == ActivationStatus.running) = i :: rest →
      (restart defaultSettings aRestW instRestW).jobs =
        [Job.deactivate_rulesets i.id defaultSettings.deployment_type,
         Job.activate_rulesets false aRestW.id
           defaultSettings.deployment_type defaultSettings.ws_base_url
           defaultSettings.ssl_verify] ∧
      i ∈ instRestW ∧ i.activation_id = aRestW.id ∧
      i.status = ActivationStatus.running) :=
  restart_enabled_spec defaultSettings aRestW instRestW (by decide)

/-- C10: when an enabled Activation has two or more RUNNING instances,
Restart dispatches a deactivate only for the first of them; every other
RUNNING instance (its id differing from the first's) receives no
deactivate dispatch. -/
theorem restart_extra_running_no_deactivate (s : Settings) (a : Activation)
    (instances : List ActivationInstance) (i j : ActivationInstance)
    (rest : List ActivationInstance)
    (h : a.is_enabled = true)
    (hf : instances.filter (fun x => x.activation_id == a.id &&
      x.status == ActivationStatus.running) = i :: j :: rest) :
    (restart s a instances).jobs.filter isDeact =
      [Job.deactivate_rulesets i.id s.deployment_type] ∧
    (∀ k, k ∈ j :: rest → k.id ≠ i.id →
      countDeactFor (restart s a instances).jobs k.id = 0) := by
  constructor
  · simp [restart, h, hf, isDeact]
  · intro k hk hne
    have hki : (i.id == k.id) = false := beq_eq_false_iff_ne.mpr (Ne.symm hne)
    simp [restart, h, hf, countDeactFor, isDeactFor, hki]

/-- Enabled Activation for the C10 witness. -/
def aMultiW : Activation :=
  { id := 8, name := "w10", is_enabled := true, status := ActivationStatus.running
    failure_count := 0, restart_count := 0, current_job_id := none
    decision_environment_id := none, project_id := none, rulebook_id := none
    extra_var_id := none, ruleset_stats := [] }

/-- First RUNNING instance of the C10 witness Activation. -/
def instMultiA : ActivationInstance :=
  { id := 80, activation_id := 8, status := ActivationStatus.running, started_at := 0 }

/-- Second RUNNING instance of the C10 witness Activation. -/
def instMultiB : ActivationInstance :=
  { id := 81, activation_id := 8, status := ActivationStatus.running, started_at := 1 }

theorem restart_extra_running_no_deactivate_witness :
    (restart defaultSettings aMultiW [instMultiA, instMultiB]).jobs.filter isDeact =
      [Job.deactivate_rulesets instMultiA.id defaultSettings.deployment_type] ∧
    (∀ k, k ∈ [instMultiB] → k.id ≠ instMultiA.id →
      countDeactFor (restart defaultSettings aMultiW [instMultiA, instMultiB]).jobs
        k.id = 0) :=
  restart_extra_running_no_deactivate defaultSettings aMultiW
    [instMultiA, instMultiB] instMultiA instMultiB [] (by decide) (by decide)

/-- Skipping a dependent-objects entry whose reference is absent or
exists. -/
theorem checkDependentObjects_skip (tbl : List Nat) (nm : String)
    (oid : Option Nat) (rest : List (List Nat × String × Option Nat))
    (h : depExists tbl oid = true) :
    checkDependentObjects ((tbl, nm, oid) :: rest) = checkDependentObjects rest := by
  cases oid with
  | none => rfl
  | some i =>
    simp only [depExists] at h
    simp only [checkDependentObjects, h, if_true]

/-- A referenced id missing from its table stops the walk with the specific
error. -/
theorem checkDependentObjects_hit (tbl : List Nat) (nm : String) (i : Nat)
    (rest : List (List Nat × String × Option Nat)) (h : i ∉ tbl) :
    checkDependentObjects ((tbl, nm, some i) :: rest) =
      ApiError.unprocessable
        (nm.capitalize ++ " with ID=" ++ toString i ++ " does not exist.") := by
  simp [checkDependentObjects, h]

/-- C8: the conflict resolver checks decision environment, project,
rulebook and extra var in that fixed order, skipping absent references:
when every referenced id exists it raises the generic integrity error, and
otherwise it raises an Unprocessable naming (with the capitalized entity
name and the given id) the first referenced id in that order that does not
exist. -/
theorem handle_create_conflict_spec (db : DB) (v : CreateInput) :
    (depExists db.decision_environments v.decision_environment_id = true →
     depExists db.projects v.project_id = true →
     depExists db.rulebooks v.rulebook_id = true →
     depExists db.extra_vars v.extra_var_id = true →
      handle_activation_create_conflict db v =
        ApiError.unprocessable "Integrity error.") ∧
    (∀ oid, v.decision_environment_id = some oid →
      oid ∉ db.decision_environments →
      handle_activation_create_conflict db v =
        ApiError.unprocessable
          ("Decision_environment with ID=" ++ toString oid ++ " does not exist.")) ∧
    (∀ oid, depExists db.decision_environments v.decision_environment_id = true →
      v.project_id = some oid → oid ∉ db.projects →
      handle_activation_create_conflict db v =
        ApiError.unprocessable
          ("Project with ID=" ++ toString oid ++ " does not exist.")) ∧
    (∀ oid, depExists db.decision_environments v.decision_environment_id = true →
      depExists db.projects v.project_id = true →
      v.rulebook_id = some oid → oid ∉ db.rulebooks →
      handle_activation_create_conflict db v =
        ApiError.unprocessable
          ("Rulebook with ID=" ++ toString oid ++ " does not exist.")) ∧
    (∀ oid, depExists db.decision_environments v.decision_environment_id = true →
      depExists db.projects v.project_id = true →
      depExists db.rulebooks v.rulebook_id = true →
      v.extra_var_id = some oid → oid ∉ db.extra_vars →
      handle_activation_create_conflict db v =
        ApiError.unprocessable
          ("Extra_var with ID=" ++ toString oid ++ " does not exist.")) := by
  refine ⟨?_, ?_, ?_, ?_, ?_⟩
  · intro h1 h2 h3 h4
    unfold handle_activation_create_conflict
    rw [checkDependentObjects_skip _ _ _ _ h1, checkDependentObjects_skip _ _ _ _ h2,
      checkDependentObjects_skip _ _ _ _ h3, checkDependentObjects_skip _ _ _ _ h4]
    rfl
  · intro oid hde hnot
    unfold handle_activation_create_conflict
    rw [hde, checkDependentObjects_hit _ _ _ _ hnot]
    rfl
  · intro oid h1 hp hnot
    unfold handle_activation_create_conflict
    rw [checkDependentObjects_skip _ _ _ _ h1, hp,
      checkDependentObjects_hit _ _ _ _ hnot]
    rfl
  · intro oid h1 h2 hr hnot
    unfold handle_activation_create_conflict
    rw [checkDependentObjects_skip _ _ _ _ h1, checkDependentObjects_skip _ _ _ _ h2,
      hr, checkDependentObjects_hit _ _ _ _ hnot]
    rfl
  · intro oid h1 h2 h3 he hnot
    unfold handle_activation_create_conflict
    rw [checkDependentObjects_skip _ _ _ _ h1, checkDependentObjects_skip _ _ _ _ h2,
      checkDependentObjects_skip _ _ _ _ h3, he,
      checkDependentObjects_hit _ _ _ _ hnot]
    rfl

/-- Database for the C8 witness: no rulebooks exist. -/
def dbW8 : DB :=
  { decision_environments := [1], projects := [2], rulebooks := [], extra_vars := [] }

/-- Attempted Activation fields for the C8 witness: a dangling rulebook
reference, all other references valid or absent. -/
def vW8 : CreateInput :=
  { name := "w8", is_enabled := false, decision_environment_id := some 1
    project_id := some 2, rulebook_id := some 42, extra_var_id := none }

theorem handle_create_conflict_spec_witness :
    handle_activation_create_conflict dbW8 vW8 =
      ApiError.unprocessable
        ("Rulebook with ID=" ++ toString 42 ++ " does not exist.") :=
  (handle_create_conflict_spec dbW8 vW8).2.2.2.1 42 (by decide) (by decide)
    rfl (by decide)

/-- C9: the rule counters computed on retrieve are the sums of
`numberOfRules` and `rulesTriggered` over all entries of `ruleset_stats`,
and both counters are 0 when the stats mapping is empty. -/
theorem retrieve_rules_count_spec (a : Activation)
    (instances : List ActivationInstance) :
    (retrieve a instances).rules_count = sum_numberOfRules a.ruleset_stats ∧
    (retrieve a instances).rules_fired_count = sum_rulesTriggered a.ruleset_stats ∧
    (a.ruleset_stats = [] →
      (retrieve a instances).rules_count = 0 ∧
      (retrieve a instances).rules_fired_count = 0) := by
  refine ⟨?_, ?_, ?_⟩
  · simp [retrieve, _get_rules_count, rules_count_foldl]
  · simp [retrieve, _get_rules_count, rules_count_foldl]
  · intro he
    simp [retrieve, _get_rules_count, he]

/-- Activation with two stats entries for the C9 witness. -/
def aStatsW : Activation :=
  { id := 20, name := "w9", is_enabled := true, status := ActivationStatus.running
    failure_count := 0, restart_count := 0, current_job_id := none
    decision_environment_id := none, project_id := none, rulebook_id := none
    extra_var_id := none
    ruleset_stats := [("r1", { numberOfRules := 5, rulesTriggered := 2 }),
                      ("r2", { numberOfRules := 7, rulesTriggered := 3 })] }

/-- Activation with empty stats for the C9 witness. -/
def aEmptyW : Activation :=
  { id := 21, name := "w9b", is_enabled := true, status := ActivationStatus.running
    failure_count := 0, restart_count := 0, current_job_id := none
    decision_environment_id := none, project_id := none, rulebook_id := none
    extra_var_id := none, ruleset_stats := [] }

theorem retrieve_rules_count_spec_witness :
    (retrieve aStatsW []).rules_count = sum_numberOfRules aStatsW.ruleset_stats ∧
    (retrieve aStatsW []).rules_fired_count = sum_rulesTriggered aStatsW.ruleset_stats ∧
    ((retrieve aEmptyW []).rules_count = 0 ∧
     (retrieve aEmptyW []).rules_fired_count = 0) :=
  ⟨(retrieve_rules_count_spec aStatsW []).1,
   (retrieve_rules_count_spec aStatsW []).2.1,
   (retrieve_rules_count_spec aEmptyW []).2.2 rfl⟩

/-- C6: Disable on an already-disabled Activation is a success no-op;
otherwise it sets status STOPPING and `is_enabled` false, persists,
dispatches the deactivate task, and — through that task — every RUNNING
instance of the Activation receives a deactivate signal exactly once, and
nothing else receives one. -/
theorem disable_spec (s : Settings) (a : Activation)
    (instances : List ActivationInstance)
    (hnd : (instances.map ActivationInstance.id).Nodup) :
    (a.is_enabled = false →
      disable a = { activation := a, jobs := [], response := 204 }) ∧
    (a.is_enabled = true →
      (disable a).activation =
        { a with status := ActivationStatus.stopping, is_enabled := false } ∧
      (disable a).jobs = [Job.deactivate a.id] ∧
      (disable a).response = 204 ∧
      (∀ i ∈ instances, i.activation_id = a.id →
        i.status = ActivationStatus.running →
        countDeactFor (deactivate_task s instances a.id) i.id = 1) ∧
      (∀ j ∈ deactivate_task s instances a.id, ∃ i, i ∈ instances ∧
        i.activation_id = a.id ∧ i.status = ActivationStatus.running ∧
        j = Job.deactivate_rulesets i.id s.deployment_type)) := by
  constructor
  · intro h
    simp [disable, h]
  · intro h
    refine ⟨by simp [disable, h], by simp [disable, h], by simp [disable, h], ?_, ?_⟩
    · intro i hi hact hrun
      unfold countDeactFor deactivate_task
      rw [filter_isDeactFor_map, List.length_map]
      exact length_filter_id_eq_one instances _ i hnd hi (by simp [hact, hrun])
    · intro j hj
      unfold deactivate_task at hj
      obtain ⟨i, hi, rfl⟩ := List.mem_map.mp hj
      obtain ⟨hmem, hpred⟩ := List.mem_filter.mp hi
      simp only [Bool.and_eq_true, beq_iff_eq] at hpred
      exact ⟨i, hmem, hpred.1, hpred.2, rfl⟩

/-- An already-disabled Activation for the C6 witness. -/
def aDisOffW : Activation :=
  { id := 9, name := "w6a", is_enabled := false, status := ActivationStatus.stopped
    failure_count := 0, restart_count := 0, current_job_id := none
    decision_environment_id := none, project_id := none, rulebook_id := none
    extra_var_id := none, ruleset_stats := [] }

/-- An enabled Activation for the C6 witness. -/
def aDisOnW : Activation :=
  { id := 10, name := "w6b", is_enabled := true, status := ActivationStatus.running
    failure_count := 0, restart_count := 0, current_job_id := some 3
    decision_environment_id := none, project_id := none, rulebook_id := none
    extra_var_id := none, ruleset_stats := [] }

/-- Instances for the C6 witness: one RUNNING owned instance, one STOPPED
owned instance, one RUNNING instance of a different Activation. -/
def instDisW : List ActivationInstance :=
  [{ id := 90, activation_id := 10, status := ActivationStatus.running, started_at := 0 },
   { id := 91, activation_id := 10, status := ActivationStatus.stopped, started_at := 1 },
   { id := 92, activation_id := 11, status := ActivationStatus.running, started_at := 2 }]

theorem disable_spec_witness :
    disable aDisOffW = { activation := aDisOffW, jobs := [], response := 204 } ∧
    ((disable aDisOnW).activation =
        { aDisOnW with status := ActivationStatus.stopping, is_enabled := false } ∧
      (disable aDisOnW).jobs = [Job.deactivate aDisOnW.id] ∧
      (disable aDisOnW).response = 204 ∧
      (∀ i ∈ instDisW, i.activation_id = aDisOnW.id →
        i.status = ActivationStatus.running →
        countDeactFor (deactivate_task defaultSettings instDisW aDisOnW.id) i.id = 1) ∧
      (∀ j ∈ deactivate_task defaultSettings instDisW aDisOnW.id, ∃ i, i ∈ instDisW ∧
        i.activation_id = aDisOnW.id ∧ i.status = ActivationStatus.running ∧
        j = Job.deactivate_rulesets i.id defaultSettings.deployment_type)) :=
  ⟨(disable_spec defaultSettings aDisOffW instDisW (by decide)).1 rfl,
   (disable_spec defaultSettings aDisOnW instDisW (by decide)).2 rfl⟩

/-- Filtering the per-instance destroy dispatches by one instance id is
filtering the instances by that id first. -/
theorem filter_isDeactEventFor_map (l : List ActivationInstance) (dt : String)
    (n : Nat) :
    (l.map (fun i => Event.dispatch (Job.deactivate_rulesets i.id dt))).filter
        (isDeactEventFor n) =
      (l.filter (fun i => i.id == n)).map
        (fun i => Event.dispatch (Job.deactivate_rulesets i.id dt)) := by
  induction l with
  | nil => rfl
  | cons x xs ih =>
    by_cases h : (x.id == n) = true
    · simp [List.filter_cons, isDeactEventFor, h, ih]
    · simp [List.filter_cons, isDeactEventFor, h, ih]

/-- Every per-instance destroy dispatch is a deactivate event. -/
theorem filter_isDeactEvent_map (l : List ActivationInstance) (dt : String) :
    (l.map (fun i => Event.dispatch (Job.deactivate_rulesets i.id dt))).filter
        isDeactEvent =
      l.map (fun i => Event.dispatch (Job.deactivate_rulesets i.id dt)) := by
  induction l with
  | nil => rfl
  | cons x xs ih => simp [List.filter_cons, isDeactEvent, ih]

/-- Activation for the C7 counterexample. -/
def aDelC7 : Activation :=
  { id := 1, name := "c7", is_enabled := true, status := ActivationStatus.stopped
    failure_count := 0, restart_count := 0, current_job_id := none
    decision_environment_id := none, project_id := none, rulebook_id := none
    extra_var_id := none, ruleset_stats := [] }

/-- Instance list for the C7 counterexample: one STOPPED owned instance,
so the Activation owns N = 0 RUNNING instances. -/
def instDelC7 : List ActivationInstance :=
  [{ id := 10, activation_id := 1, status := ActivationStatus.stopped, started_at := 0 }]

/-- Counterexample to C7: deleting an Activation that owns one STOPPED and
no RUNNING instance (N = 0) dispatches 1 deactivate job, not N = 0 — the
destroy path deactivates every owned instance whatever its status. -/
theorem perform_destroy_counterexample :
    (instDelC7.filter (fun i => i.activation_id == aDelC7.id &&
        i.status == ActivationStatus.running)).length = 0 ∧
    ((perform_destroy defaultSettings aDelC7 instDelC7).filter isDeactEvent).length = 1 ∧
    ((perform_destroy defaultSettings aDelC7 instDelC7).filter isDeactEvent).length ≠
      (instDelC7.filter (fun i => i.activation_id == aDelC7.id &&
        i.status == ActivationStatus.running)).length := by
  decide

/-- C7 (amended): deleting an Activation owning N instances — of any
status — dispatches exactly N deactivate jobs, one per owned instance,
and every deactivate dispatch happens before the record removal, which is
the final event of the destroy path. -/
theorem perform_destroy_per_instance (s : Settings) (a : Activation)
    (instances : List ActivationInstance)
    (hnd : (instances.map ActivationInstance.id).Nodup) :
    ((perform_destroy s a instances).filter isDeactEvent).length =
      (instances.filter (fun i => i.activation_id == a.id)).length ∧
    (∀ i ∈ instances, i.activation_id = a.id →
      ((perform_destroy s a instances).filter (isDeactEventFor i.id)).length = 1) ∧
    (perform_destroy s a instances).getLast? = some (Event.removeActivation a.id) ∧
    (∀ e ∈ (perform_destroy s a instances).dropLast, isDeactEvent e = true) := by
  refine ⟨?_, ?_, ?_, ?_⟩
  · unfold perform_destroy
    rw [List.filter_append, filter_isDeactEvent_map]
    simp [isDeactEvent]
  · intro i hi hact
    unfold perform_destroy
    rw [List.filter_append, filter_isDeactEventFor_map]
    have hrem : List.filter (isDeactEventFor i.id) [Event.removeActivation a.id] = [] := rfl
    rw [hrem, List.append_nil, List.length_map]
    exact length_filter_id_eq_one instances _ i hnd hi (by simp [hact])
  · unfold perform_destroy
    exact List.getLast?_concat _
  · intro e he
    unfold perform_destroy at he
    rw [List.dropLast_concat] at he
    obtain ⟨i, hi, rfl⟩ := List.mem_map.mp he
    rfl

/-- Activation for the C7 amended witness. -/
def aDelW : Activation :=
  { id := 12, name := "w7", is_enabled := true, status := ActivationStatus.running
    failure_count := 0, restart_count := 0, current_job_id := none
    decision_environment_id := none, project_id := none, rulebook_id := none
    extra_var_id := none, ruleset_stats := [] }

/-- Instances for the C7 amended witness: a RUNNING and a FAILED owned
instance plus a foreign instance. -/
def instDelW : List ActivationInstance :=
  [{ id := 95, activation_id := 12, status := ActivationStatus.running, started_at := 0 },
   { id := 96, activation_id := 12, status := ActivationStatus.failed, started_at := 1 },
   { id := 97, activation_id := 13, status := ActivationStatus.running, started_at := 2 }]

theorem perform_destroy_per_instance_witness :
    ((perform_destroy defaultSettings aDelW instDelW).filter isDeactEvent).length =
      (instDelW.filter (fun i => i.activation_id == aDelW.id)).length ∧
    (∀ i ∈ instDelW, i.activation_id = aDelW.id →
      ((perform_destroy defaultSettings aDelW instDelW).filter
        (isDeactEventFor i.id)).length = 1) ∧
    (perform_destroy defaultSettings aDelW instDelW).getLast? =
      some (Event.removeActivation aDelW.id) ∧
    (∀ e ∈ (perform_destroy defaultSettings aDelW instDelW).dropLast,
      isDeactEvent e = true) :=
  perform_destroy_per_instance defaultSettings aDelW instDelW (by decide)

end AapEda
